import Mathlib

/-!
Verification of the phone-to-pc-sync local HTTP server (`server.py`).

This file gives a shallow embedding of the server's request-handling
logic — the filename sanitizer and deduplicator, the file classifier,
the size formatter, the upload and download handlers, and the in-memory
text-sync store — and proves theorems about the behaviour the
specification claims.  Filesystem state is modelled by boolean oracles
(`ex` for `os.path.exists`, `isfile` for `os.path.isfile`) on path
strings; handlers are pure functions from request data and oracle state
to structured outcomes.
-/

namespace PhoneSync

/-! ## POSIX path helpers as used by `server.py` -/

/-- Model of `os.path.basename` on POSIX: the component after the last
slash of the path. -/
def basename (p : String) : String :=
  ⟨(p.data.reverse.takeWhile (fun c => c ≠ '/')).reverse⟩

/-- Model of `os.path.join dir name` for a relative `name`, the only way
`server.py` calls it (its second argument is always a `basename` result,
hence slash-free). -/
def joinPath (dir name : String) : String := dir ++ "/" ++ name

/-- Model of `os.path.splitext` on a slash-free name: split at the last
dot, unless every character before that dot is itself a dot (leading
dots carry no extension). -/
def splitext (p : String) : String × String :=
  if (p.data.reverse.takeWhile (fun c => c ≠ '.')).length = p.data.length then (p, "")
  else if (p.data.take (p.data.length - (p.data.reverse.takeWhile (fun c => c ≠ '.')).length - 1)).all
      (fun c => c = '.') then (p, "")
  else (⟨p.data.take (p.data.length - (p.data.reverse.takeWhile (fun c => c ≠ '.')).length - 1)⟩,
        ⟨p.data.drop (p.data.length - (p.data.reverse.takeWhile (fun c => c ≠ '.')).length - 1)⟩)

/-! ## `format_file_size` -/

/-- Round a rational to the nearest integer, ties to even — the rounding
binary floating point applies when `"%.1f"` formatting (used by
`format_file_size`) lands exactly between two representable values. -/
def rne (q : ℚ) : ℤ :=
  let f := ⌊q⌋
  let r := q - f
  if r < 1/2 then f else if 1/2 < r then f + 1 else if f % 2 = 0 then f else f + 1

/-- The `"%.1f"` rendering of a nonnegative value: the integer part, a
dot, and one rounded decimal digit. -/
def fmtOneDecimal (q : ℚ) : String :=
  let t := rne (q * 10)
  toString (t / 10) ++ "." ++ toString (t % 10)

/-- Function `format_file_size` from `server.py`: walk the units B, KB, MB, GB,
dividing by 1024 while the value is at least 1024, and fall through to
TB; whole bytes print with no decimal, every other unit with one decimal
place.  The Python loop divides a float by 1024, which is exact (an
exponent decrement), so rational division models it faithfully. -/
def format_file_size (size_bytes : Nat) : String :=
  if size_bytes < 1024 then toString size_bytes ++ " B"
  else
    let k : ℚ := (size_bytes : ℚ) / 1024
    if k < 1024 then fmtOneDecimal k ++ " KB"
    else
      let m := k / 1024
      if m < 1024 then fmtOneDecimal m ++ " MB"
      else
        let g := m / 1024
        if g < 1024 then fmtOneDecimal g ++ " GB"
        else fmtOneDecimal (g / 1024) ++ " TB"

/-! ## Text-sync store (`/text` endpoint) -/

/-- Outcome of the `/text` branch of `do_POST`: the new value of the
global `synced_text` plus the JSON response fields. -/
structure TextPostResult where
  newText : String
  status : Nat
  respSuccess : Bool
  respLength : Nat
  deriving DecidableEq

/-- The `/text` branch of `do_POST`: the body is read and assigned to
`synced_text` only when the declared Content-Length is positive; the
response always reports success and the length of the stored text after
the branch. -/
def handleTextPost (syncedText : String) (contentLength : Nat) (body : String) :
    TextPostResult :=
  let newText := if 0 < contentLength then body else syncedText
  { newText := newText, status := 200, respSuccess := true, respLength := newText.length }

/-- Response of `serve_synced_text`: the status and the `text` field of
the JSON payload. -/
structure TextGetResult where
  status : Nat
  textField : String
  deriving DecidableEq

/-- Handler `serve_synced_text`: respond 200 with the current `synced_text` as
the `text` field. -/
def serve_synced_text (syncedText : String) : TextGetResult :=
  ⟨200, syncedText⟩

/-! ## File classifier (`get_file_icon`) -/

/-- ASCII model of Python `str.lower` on a single character (the
extension tables of `get_file_icon` are all ASCII). -/
def lowerChar (c : Char) : Char :=
  if 65 ≤ c.toNat ∧ c.toNat ≤ 90 then Char.ofNat (c.toNat + 32) else c

/-- ASCII model of Python `str.lower` on a string. -/
def lowerStr (s : String) : String := ⟨s.data.map lowerChar⟩

/-- The extension `get_file_icon` keys on:
`filename.lower().split('.')[-1] if '.' in filename else ''`, i.e. the
lowercased text after the last dot, or `""` when the name has no dot. -/
def extOf (filename : String) : String :=
  if '.' ∈ filename.data then
    ⟨((lowerStr filename).data.reverse.takeWhile (fun c => c ≠ '.')).reverse⟩
  else ""

/-- Function `get_file_icon` from `server.py`: the extension-to-icon decision
chain, including the in-progress, spreadsheet, word, markdown and text
special cases, with `FILE_ICONS['default']` as the fallback. -/
def get_file_icon (filename : String) : String :=
  let ext := extOf filename
  if ext ∈ ["crdownload", "part", "tmp", "download", "partial"] then "⏳"
  else if ext ∈ ["jpg", "jpeg", "png", "gif", "webp", "svg", "bmp", "ico"] then "🖼️"
  else if ext ∈ ["mp4", "mov", "avi", "mkv", "webm", "m4v"] then "🎬"
  else if ext ∈ ["mp3", "wav", "flac", "aac", "m4a", "ogg"] then "🎵"
  else if ext = "pdf" then "📄"
  else if ext ∈ ["doc", "docx", "txt", "rtf", "odt", "md", "csv", "xlsx", "xls"] then
    if ext ∈ ["csv", "xlsx", "xls"] then "📊"
    else if ext ∈ ["doc", "docx"] then "📘"
    else if ext = "md" then "📋"
    else if ext = "txt" then "📝"
    else "📝"
  else if ext ∈ ["zip", "rar", "7z", "tar", "gz", "bz2"] then "📦"
  else if ext ∈ ["py", "js", "ts", "tsx", "jsx", "html", "css", "json", "xml", "yaml", "yml",
                  "sh", "bat", "java", "c", "cpp", "h", "hpp", "go", "rs", "rb", "php", "sql",
                  "swift", "kt", "kts", "toml", "ini", "conf", "vue", "svelte", "scss", "sass",
                  "less", "r", "lua", "pl", "pm", "ps1", "psm1", "dockerfile", "makefile"] then "💻"
  else "📄"

/-! ## Upload handler (file branch of `do_POST`) -/

/-- The duplicate-name loop of `do_POST`: probe `dir/stem_1.ext`,
`dir/stem_2.ext`, … until the existence oracle reports a free path.
`fuel` bounds the unbounded Python `while`; `none` models a run that is
still probing after `fuel` steps. -/
def dedupProbe (ex : String → Bool) (dir stem ext : String) :
    Nat → Nat → Option String
  | 0, _ => none
  | fuel+1, counter =>
      let p := joinPath dir (stem ++ "_" ++ toString counter ++ ext)
      if ex p then dedupProbe ex dir stem ext fuel (counter+1) else some p

/-- Target-path resolution of the upload branch: sanitize the name with
`basename`, join it to the destination directory, and if that path
exists, split the name with `splitext` and run the duplicate-name
loop. -/
def resolveUploadPath (ex : String → Bool) (dir rawName : String) (fuel : Nat) :
    Option String :=
  let filename := basename rawName
  let p := joinPath dir filename
  if ex p then
    let se := splitext filename
    dedupProbe ex dir se.1 se.2 fuel 1
  else some p

/-- Outcome of the upload branch of `do_POST`: the HTTP status and the
path written, if any. -/
structure UploadOutcome where
  status : Nat
  writtenPath : Option String
  deriving DecidableEq

/-- The file-upload branch of `do_POST` (any POST path other than
`/text` and `/clipboard`): a zero Content-Length is rejected with 400
before any filesystem access; otherwise the name comes from the
(percent-decoded) `X-Filename` header when that header is present and
nonempty, else from a synthesized timestamp name, and the body is
written to the resolved target path. -/
def handleUpload (ex : String → Bool) (dir : String) (headerName : Option String)
    (fallbackName : String) (contentLength : Nat) (fuel : Nat) :
    Option UploadOutcome :=
  if contentLength = 0 then some ⟨400, none⟩
  else
    let nm := match headerName with
      | some h => if h = "" then fallbackName else h
      | none => fallbackName
    (resolveUploadPath ex dir nm fuel).map fun p => ⟨200, some p⟩

/-! ## Download handler (`serve_file_download`) -/

/-- The path `serve_file_download` works with: the requested name
reduced to its basename, joined to the destination directory. -/
def downloadPath (dir rawName : String) : String :=
  joinPath dir (basename rawName)

/-- Outcome of `serve_file_download`: the HTTP status and the path whose
bytes are streamed as the body, if any. -/
structure DownloadOutcome where
  status : Nat
  servedPath : Option String
  deriving DecidableEq

/-- Handler `serve_file_download`: 404 with no body when the sanitized path does
not exist or is not a regular file; otherwise 200 streaming that
path. -/
def serve_file_download (ex isfile : String → Bool) (dir rawName : String) :
    DownloadOutcome :=
  let p := downloadPath dir rawName
  if !(ex p) || !(isfile p) then ⟨404, none⟩ else ⟨200, some p⟩

/-! ## Response headers -/

/-- The permissive CORS header every handler is claimed to send. -/
def corsHeader : String × String := ("Access-Control-Allow-Origin", "*")

/-- Headers sent by `serve_html` (GET `/`). -/
def serve_html_headers : List (String × String) :=
  [("Content-type", "text/html; charset=utf-8")]

/-- Headers sent by `serve_synced_text` (GET `/text`). -/
def serve_synced_text_headers : List (String × String) :=
  [("Content-type", "application/json"), corsHeader]

/-- Headers sent by `serve_files_list` (GET `/files`). -/
def serve_files_list_headers : List (String × String) :=
  [("Content-type", "application/json"), corsHeader]

/-- Headers sent on the success path of the `/text` branch of
`do_POST`. -/
def text_post_headers : List (String × String) :=
  [("Content-type", "application/json"), corsHeader]

/-- Headers sent on the success path of the `/clipboard` branch of
`do_POST`. -/
def clipboard_post_headers : List (String × String) :=
  [("Content-type", "text/plain"), corsHeader]

/-- Headers sent on the success path of the file-upload branch of
`do_POST`. -/
def upload_post_headers : List (String × String) :=
  [("Content-type", "application/json"), corsHeader]

/-- Headers sent on the success path of `serve_file_download`, given the
computed MIME type, size and Content-Disposition values. -/
def download_headers (mime size disp : String) : List (String × String) :=
  [("Content-Type", mime), ("Content-Length", size), ("Content-Disposition", disp),
   corsHeader, ("Access-Control-Allow-Methods", "GET, POST, OPTIONS"),
   ("Access-Control-Allow-Headers", "Content-Type, X-Filename"),
   ("Access-Control-Expose-Headers", "Content-Disposition, Content-Length"),
   ("Cache-Control", "no-cache")]

/-- Headers sent by `do_OPTIONS` (CORS preflight). -/
def do_OPTIONS_headers : List (String × String) :=
  [corsHeader, ("Access-Control-Allow-Methods", "GET, POST, OPTIONS"),
   ("Access-Control-Allow-Headers", "Content-Type, X-Filename")]

/-! ## Path confinement -/

/-- A path confined to `dir`: `dir/c` for a single slash-free component
`c` that is not empty and not the `.` or `..` directory reference. -/
def confinedTo (dir p : String) : Prop :=
  ∃ c : String, p = joinPath dir c ∧ '/' ∉ c.data ∧ c ≠ "." ∧ c ≠ ".." ∧ c ≠ ""

end PhoneSync
namespace PhoneSync

theorem toNat_ofNat_valid (n : Nat) (h : n.isValidChar) : (Char.ofNat n).toNat = n := by
  rw [Char.ofNat, dif_pos h]
  simp [Char.ofNatAux, Char.toNat, UInt32.toNat, UInt32.ofNatCore]

theorem basename_no_slash (nm : String) : '/' ∉ (basename nm).data := by
  intro h
  rw [basename] at h
  rw [List.mem_reverse] at h
  have := List.mem_takeWhile_imp h
  simp at this

theorem digitChar_ne_slash (m : Nat) (hm : m < 10) : Nat.digitChar m ≠ '/' := by
  interval_cases m <;> decide

theorem toDigitsCore_ne_slash :
    ∀ (fuel n : Nat) (acc : List Char), (∀ c ∈ acc, c ≠ '/') →
      ∀ c ∈ Nat.toDigitsCore 10 fuel n acc, c ≠ '/' := by
  intro fuel
  induction fuel with
  | zero => intro n acc hacc c hc; rw [Nat.toDigitsCore] at hc; exact hacc c hc
  | succ f ih =>
      intro n acc hacc c hc
      rw [Nat.toDigitsCore] at hc
      split at hc
      · rcases List.mem_cons.mp hc with h | h
        · exact h ▸ digitChar_ne_slash _ (Nat.mod_lt _ (by omega))
        · exact hacc c h
      · refine ih _ _ ?_ c hc
        intro d hd
        rcases List.mem_cons.mp hd with h | h
        · exact h ▸ digitChar_ne_slash _ (Nat.mod_lt _ (by omega))
        · exact hacc d h

theorem toString_nat_no_slash (n : Nat) : '/' ∉ (toString n).data := by
  intro h
  exact toDigitsCore_ne_slash (n+1) n [] (by simp) '/' h rfl

theorem splitext_fst_subset (s : String) : (splitext s).1.data ⊆ s.data := by
  rw [splitext]
  split
  · exact fun c h => h
  · split
    · exact fun c h => h
    · exact fun c h => List.take_subset _ _ h

theorem splitext_snd_subset (s : String) : (splitext s).2.data ⊆ s.data := by
  rw [splitext]
  split
  · simp
  · split
    · simp
    · exact fun c h => List.drop_subset _ _ h

end PhoneSync
namespace PhoneSync

theorem dedupProbe_some (ex : String → Bool) (dir stem ext : String) :
    ∀ (fuel counter : Nat) (p : String),
      dedupProbe ex dir stem ext fuel counter = some p →
      ∃ n : Nat, p = joinPath dir (stem ++ "_" ++ toString n ++ ext) ∧ ex p = false := by
  intro fuel
  induction fuel with
  | zero => intro counter p h; rw [dedupProbe] at h; exact absurd h (by simp)
  | succ f ih =>
      intro counter p h
      rw [dedupProbe] at h
      split at h
      · exact ih _ _ h
      · rename_i hex
        rw [Option.some_inj] at h
        exact ⟨counter, h.symm, h ▸ (Bool.not_eq_true _).mp hex⟩

theorem dedupProbe_eventually (ex : String → Bool) (dir stem ext : String) :
    ∀ (fuel c N : Nat), c ≤ N →
      (∀ i, c ≤ i → i < N → ex (joinPath dir (stem ++ "_" ++ toString i ++ ext)) = true) →
      ex (joinPath dir (stem ++ "_" ++ toString N ++ ext)) = false →
      N - c < fuel →
      dedupProbe ex dir stem ext fuel c =
        some (joinPath dir (stem ++ "_" ++ toString N ++ ext)) := by
  intro fuel
  induction fuel with
  | zero => intro c N _ _ _ hf; omega
  | succ f ih =>
      intro c N hcN hall hfree hf
      rw [dedupProbe]
      rcases Nat.lt_or_ge c N with hlt | hge
      · rw [if_pos (hall c le_rfl hlt)]
        exact ih (c+1) N (by omega) (fun i h1 h2 => hall i (by omega) h2) hfree (by omega)
      · have hcN' : c = N := le_antisymm hcN hge
        subst hcN'
        rw [if_neg (by simp [hfree])]

theorem resolveUploadPath_some (ex : String → Bool) (dir rawName : String) (fuel : Nat)
    (p : String) (h : resolveUploadPath ex dir rawName fuel = some p) :
    ∃ c, p = joinPath dir c ∧ '/' ∉ c.data ∧ ex (joinPath dir c) = false := by
  rw [resolveUploadPath] at h
  split at h
  · rcases dedupProbe_some ex dir _ _ fuel 1 p h with ⟨n, hp, hex⟩
    refine ⟨_, hp, ?_, hp ▸ hex⟩
    intro hmem
    simp only [String.data_append] at hmem
    rcases List.mem_append.mp hmem with hm | hm
    · rcases List.mem_append.mp hm with hm2 | hm2
      · rcases List.mem_append.mp hm2 with hm3 | hm3
        · exact basename_no_slash rawName (splitext_fst_subset _ hm3)
        · simp at hm3
      · exact toString_nat_no_slash n hm2
    · exact basename_no_slash rawName (splitext_snd_subset _ hm)
  · rename_i hex
    rw [Option.some_inj] at h
    exact ⟨basename rawName, h.symm, basename_no_slash rawName,
      (Bool.not_eq_true _).mp hex⟩

end PhoneSync
namespace PhoneSync

theorem lowerChar_idem (c : Char) : lowerChar (lowerChar c) = lowerChar c := by
  by_cases h : 65 ≤ c.toNat ∧ c.toNat ≤ 90
  · have hc : lowerChar c = Char.ofNat (c.toNat + 32) := by rw [lowerChar, if_pos h]
    have hv : (c.toNat + 32).isValidChar := by left; omega
    have ht : (Char.ofNat (c.toNat + 32)).toNat = c.toNat + 32 := toNat_ofNat_valid _ hv
    rw [hc, lowerChar, if_neg]
    rw [ht]
    omega
  · have hc : lowerChar c = c := by rw [lowerChar, if_neg h]
    rw [hc, hc]

theorem lowerChar_eq_dot (c : Char) : lowerChar c = '.' ↔ c = '.' := by
  constructor
  · intro h
    rw [lowerChar] at h
    split at h
    · rename_i hc
      have hv : (c.toNat + 32).isValidChar := by left; omega
      have h46 : (Char.ofNat (c.toNat + 32)).toNat = c.toNat + 32 := toNat_ofNat_valid _ hv
      rw [h] at h46
      rw [show ('.' : Char).toNat = 46 from rfl] at h46
      omega
    · exact h
  · intro h
    subst h
    rfl

theorem lowerStr_idem (s : String) : lowerStr (lowerStr s) = lowerStr s := by
  rw [lowerStr, lowerStr]
  congr 1
  simp only [List.map_map]
  apply List.map_congr_left
  intro c _
  exact lowerChar_idem c

theorem dot_mem_lowerStr (s : String) : '.' ∈ (lowerStr s).data ↔ '.' ∈ s.data := by
  rw [lowerStr]
  simp only [List.mem_map]
  constructor
  · rintro ⟨c, hc, h⟩
    rw [lowerChar_eq_dot] at h
    exact h ▸ hc
  · intro h
    exact ⟨'.', h, by rfl⟩

theorem extOf_lowerStr (f : String) : extOf (lowerStr f) = extOf f := by
  by_cases h : '.' ∈ f.data
  · rw [extOf, if_pos ((dot_mem_lowerStr f).mpr h), lowerStr_idem, extOf, if_pos h]
  · rw [extOf, if_neg, extOf, if_neg h]
    rw [dot_mem_lowerStr]
    exact h

end PhoneSync
namespace PhoneSync

/-- C6: The file-size formatting function renders sizes with base-1024
units and one decimal place except for whole bytes: 500 bytes formats as
"500 B", 2048 bytes as "2.0 KB", and 5*1024*1024 bytes as "5.0 MB". -/
theorem format_file_size_spec_examples :
    format_file_size 500 = "500 B" ∧ format_file_size 2048 = "2.0 KB" ∧
    format_file_size (5*1024*1024) = "5.0 MB" := by
  refine ⟨?_, ?_, ?_⟩
  · rw [format_file_size]; norm_num; rfl
  · rw [format_file_size]; norm_num; rw [fmtOneDecimal, rne]; norm_num; rfl
  · rw [format_file_size]; norm_num; rw [fmtOneDecimal, rne]; norm_num; rfl

/-- C10: The unit boundary of the size formatter is strict: exactly 1024
bytes formats as "1.0 KB" (not "1024 B") and exactly 1024*1024 bytes as
"1.0 MB", because promotion to the next unit happens whenever the value
is not strictly below 1024. -/
theorem format_file_size_strict_boundary :
    format_file_size 1024 = "1.0 KB" ∧ format_file_size (1024*1024) = "1.0 MB" := by
  refine ⟨?_, ?_⟩
  · rw [format_file_size]; norm_num; rw [fmtOneDecimal, rne]; norm_num; rfl
  · rw [format_file_size]; norm_num; rw [fmtOneDecimal, rne]; norm_num; rfl

/-- C9: A POST to `/text` whose declared Content-Length is 0 leaves the
stored synced text completely unchanged, and the server still responds
200 with success and the length of the previously stored text. -/
theorem text_post_zero_length_preserves_state (s body : String) :
    handleTextPost s 0 body = ⟨s, 200, true, s.length⟩ := rfl

/-- C1 (counterexample): after posting "hello" to `/text`, a POST of the
empty string (whose Content-Length is 0) does not replace the stored
text: a subsequent GET still returns "hello", not "", refuting the
claimed unconditional overwrite. -/
theorem text_post_empty_overwrite_cex :
    (serve_synced_text ((handleTextPost ((handleTextPost "" 5 "hello").newText) 0 "").newText)).textField
        = "hello" ∧
    (serve_synced_text ((handleTextPost ((handleTextPost "" 5 "hello").newText) 0 "").newText)).textField
        ≠ "" := by
  decide

/-- C1 (amended): a POST to `/text` with positive Content-Length replaces
the stored text and the response reports success and the new length, and
posting "hello" then GETting returns "hello"; but a POST of the empty
string has Content-Length 0 and leaves the store unchanged, so the
subsequent GET still returns "hello". -/
theorem text_post_overwrites_when_nonempty :
    (∀ (s body : String) (cl : Nat), 0 < cl →
        handleTextPost s cl body = ⟨body, 200, true, body.length⟩) ∧
    (serve_synced_text ((handleTextPost "" 5 "hello").newText)).textField = "hello" ∧
    (serve_synced_text ((handleTextPost ((handleTextPost "" 5 "hello").newText) 0 "").newText)).textField
        = "hello" := by
  refine ⟨?_, by decide, by decide⟩
  intro s body cl h
  rw [handleTextPost, if_pos h]

theorem text_post_overwrites_when_nonempty_witness :
    handleTextPost "" 5 "hello" = ⟨"hello", 200, true, "hello".length⟩ :=
  text_post_overwrites_when_nonempty.1 "" "hello" 5 (by decide)

/-- C2 (counterexample): the response of `serve_html` (GET `/`) carries
no Access-Control-Allow-Origin header, refuting the claim that every
response includes permissive CORS headers. -/
theorem serve_html_cors_cex :
    corsHeader ∉ serve_html_headers ∧
    "Access-Control-Allow-Origin" ∉ serve_html_headers.map Prod.fst := by
  decide

/-- C2 (amended): every success response of the JSON, file, clipboard and
OPTIONS handlers includes the permissive Access-Control-Allow-Origin
header, but the root HTML page response does not. -/
theorem cors_on_non_html_responses :
    corsHeader ∈ serve_synced_text_headers ∧
    corsHeader ∈ serve_files_list_headers ∧
    corsHeader ∈ text_post_headers ∧
    corsHeader ∈ clipboard_post_headers ∧
    corsHeader ∈ upload_post_headers ∧
    (∀ mime size disp : String, corsHeader ∈ download_headers mime size disp) ∧
    corsHeader ∈ do_OPTIONS_headers ∧
    corsHeader ∉ serve_html_headers := by
  refine ⟨by decide, by decide, by decide, by decide, by decide, ?_, by decide, by decide⟩
  intro mime size disp
  simp [download_headers]

/-- C5: an upload request (POST to a non-`/text`, non-`/clipboard` path)
with a declared Content-Length of zero is rejected with status 400 and
nothing is written to the filesystem. -/
theorem upload_zero_length_rejected (ex : String → Bool) (dir : String)
    (headerName : Option String) (fallbackName : String) (fuel : Nat) :
    handleUpload ex dir headerName fallbackName 0 fuel = some ⟨400, none⟩ := rfl

/-- C7: a GET to `/download/<name>` whose sanitized name does not resolve
to an existing regular file responds 404 and streams no body bytes. -/
theorem download_missing_not_found (ex isfile : String → Bool) (dir rawName : String)
    (h : ex (downloadPath dir rawName) = false ∨ isfile (downloadPath dir rawName) = false) :
    serve_file_download ex isfile dir rawName = ⟨404, none⟩ := by
  rcases h with h | h <;> simp [serve_file_download, h]

theorem download_missing_not_found_witness :
    serve_file_download (fun _ => false) (fun _ => false) "/d" "ghost.txt" = ⟨404, none⟩ :=
  download_missing_not_found (fun _ => false) (fun _ => false) "/d" "ghost.txt" (Or.inl rfl)

/-- C8: the file classifier depends only on the lowercased extension, so
it is case-insensitive: classifying any filename agrees with classifying
its lowercased form; `.pdf` gets the PDF icon tag, `.PDF` behaves
identically, and an unknown extension gets the default tag. -/
theorem get_file_icon_case_insensitive :
    (∀ f : String, get_file_icon f = get_file_icon (lowerStr f)) ∧
    get_file_icon "a.pdf" = "📄" ∧
    get_file_icon "a.PDF" = get_file_icon "a.pdf" ∧
    get_file_icon "a.xyz9" = "📄" := by
  refine ⟨?_, by decide, by decide, by decide⟩
  intro f
  rw [get_file_icon, get_file_icon, extOf_lowerStr]

end PhoneSync
namespace PhoneSync

/-- C3: when the sanitized upload name collides, the duplicate-name loop
never overwrites: with `a.txt`, `a_1.txt`, …, `a_(N-1).txt` all existing
and `a_N.txt` free, an upload named `a.txt` resolves to `a_N.txt`,
probing `stem_1.ext`, `stem_2.ext`, … in order. -/
theorem upload_collision_resolves_to_next_free
    (ex : String → Bool) (dir : String) (N fuel : Nat)
    (hN : 1 ≤ N)
    (h0 : ex (joinPath dir "a.txt") = true)
    (hprior : ∀ i : Nat, 1 ≤ i → i < N →
      ex (joinPath dir ("a_" ++ toString i ++ ".txt")) = true)
    (hfree : ex (joinPath dir ("a_" ++ toString N ++ ".txt")) = false)
    (hfuel : N ≤ fuel) :
    resolveUploadPath ex dir "a.txt" fuel =
      some (joinPath dir ("a_" ++ toString N ++ ".txt")) := by
  have hb : basename "a.txt" = "a.txt" := rfl
  have hs : splitext "a.txt" = ("a", ".txt") := rfl
  simp only [resolveUploadPath, hb, hs]
  rw [if_pos h0]
  exact dedupProbe_eventually ex dir "a" ".txt" fuel 1 N hN
    (fun i h1 h2 => hprior i h1 h2) hfree (by omega)

theorem upload_collision_resolves_to_next_free_witness :
    resolveUploadPath (fun q => q == "/d/a.txt" || q == "/d/a_1.txt") "/d" "a.txt" 2 =
      some (joinPath "/d" ("a_" ++ toString 2 ++ ".txt")) :=
  upload_collision_resolves_to_next_free
    (fun q => q == "/d/a.txt" || q == "/d/a_1.txt") "/d" 2 2
    (by decide) (by decide)
    (fun i h1 h2 => by
      have hi : i = 1 := by omega
      subst hi
      decide)
    (by decide) (by decide)

/-- C4: both the upload and the download handler reduce the
client-supplied name to its final path component before joining it to
the destination directory, and under the standard filesystem facts that
`dir/`, `dir/.` and `dir/..` exist and are not regular files, every path
the handlers write to or serve is confined to the destination directory;
in particular `../../etc/passwd` is reduced to `passwd`. -/
theorem sanitized_paths_confined :
    (∀ (ex : String → Bool) (dir rawName : String) (fuel : Nat) (p : String),
        ex (joinPath dir "") = true → ex (joinPath dir ".") = true →
        ex (joinPath dir "..") = true →
        resolveUploadPath ex dir rawName fuel = some p → confinedTo dir p) ∧
    (∀ (ex isfile : String → Bool) (dir rawName : String) (p : String),
        isfile (joinPath dir "") = false → isfile (joinPath dir ".") = false →
        isfile (joinPath dir "..") = false →
        (serve_file_download ex isfile dir rawName).servedPath = some p →
        confinedTo dir p) ∧
    basename "../../etc/passwd" = "passwd" := by
  refine ⟨?_, ?_, by decide⟩
  · intro ex dir rawName fuel p hroot hdot hdotdot h
    rcases resolveUploadPath_some ex dir rawName fuel p h with ⟨c, hp, hs, hex⟩
    refine ⟨c, hp, hs, ?_, ?_, ?_⟩ <;> rintro rfl
    · rw [hdot] at hex; cases hex
    · rw [hdotdot] at hex; cases hex
    · rw [hroot] at hex; cases hex
  · intro ex isfile dir rawName p hroot hdot hdotdot h
    rw [serve_file_download] at h
    split at h
    · simp at h
    · rename_i hcond
      simp only [Bool.or_eq_true, Bool.not_eq_true'] at hcond
      push_neg at hcond
      rw [Option.some_inj] at h
      subst h
      refine ⟨basename rawName, rfl, basename_no_slash rawName, ?_, ?_, ?_⟩ <;>
        intro hc
      · rw [downloadPath, hc, hdot] at hcond
        simp at hcond
      · rw [downloadPath, hc, hdotdot] at hcond
        simp at hcond
      · rw [downloadPath, hc, hroot] at hcond
        simp at hcond

theorem sanitized_paths_confined_witness :
    confinedTo "/d" "/d/passwd" ∧ confinedTo "/d" "/d/f.txt" :=
  ⟨sanitized_paths_confined.1 (fun q => q == "/d/" || q == "/d/." || q == "/d/..")
      "/d" "../../etc/passwd" 1 "/d/passwd" (by decide) (by decide) (by decide) (by decide),
   sanitized_paths_confined.2.1 (fun _ => true) (fun q => q == "/d/f.txt")
      "/d" "../f.txt" "/d/f.txt" (by decide) (by decide) (by decide) (by decide)⟩

end PhoneSync
